import Mathlib

/-!
Verification development for the `helix-vte` / `helix-view` terminal core:
a shallow embedding of `src/helix-vte/src/lib.rs` (session registry,
lifecycle task, blocking-read bridge) and of the event folding in
`src/helix-view/src/terminal.rs` (`TerminalView::poll_event`), together
with theorems settling the specified properties.

Machine integers are modelled as `Nat` with explicit bounds where overflow
matters (`u32` terminal ids wrap at `2^32`; `i32` conversion fails above
`2^31 - 1`). Byte buffers are `List Nat`. OS nondeterminism (read results,
`try_wait` outcomes, scheduling of `stream::select`) is passed in as
explicit oracle arguments, so every definition is executable.
-/

namespace HelixVte

/-- Source: `src/helix-vte/src/error.rs`, the `Error` enum. `PtyError` wraps
`anyhow::Error` from the PTY provider, `IoError` wraps `std::io::Error`,
`TerminalNotFound` carries the offending id. -/
inductive Error where
  | ptyError (msg : String)
  | ioError (msg : String)
  | terminalNotFound (id : Nat)
deriving DecidableEq

/-- Source: `src/helix-vte/src/lib.rs` lines 38-43, the `PtyEvent` enum. -/
inductive PtyEvent where
  | data (bytes : List Nat)
  | error (msg : String)
  | terminated (code : Int)
deriving DecidableEq

/-- Embeds `portable_pty::PtySize` as used at lines 97-110: rows, cols and the
pixel dimensions (always passed as 0 by this code). -/
structure PtySize where
  rows : Nat
  cols : Nat
  pixel_width : Nat
  pixel_height : Nat
deriving DecidableEq

/-- Source: `src/helix-vte/src/lib.rs` lines 45-51, `PtySpawnConfig`. -/
structure PtySpawnConfig where
  command : String
  arguments : Option (List String)
  size : Option (Nat × Nat)
  cwd : Option String
  env : Option (List (String × String))
deriving DecidableEq

/-- First-match association-list lookup, the behaviour of `HashMap::get`
on the embedded table representation (keys are kept unique by the
registry invariant). -/
def assocFind {κ α : Type} [DecidableEq κ] (k : κ) : List (κ × α) → Option α
  | [] => none
  | (k', a) :: rest => if k' = k then some a else assocFind k rest

/-- Update the value stored at a key in place, the behaviour of
`HashMap::get_mut` followed by a mutation. Keys and order are unchanged. -/
def assocUpdate {κ α : Type} [DecidableEq κ] (k : κ) (f : α → α) :
    List (κ × α) → List (κ × α)
  | [] => []
  | (k', a) :: rest =>
      if k' = k then (k', f a) :: rest else (k', a) :: assocUpdate k f rest

/-- The key set (as a list) of an association table. -/
def assocKeys {κ α : Type} (l : List (κ × α)) : List κ := l.map Prod.fst

/-- The process environment and current directory of the host process, an
oracle for `std::env::var("SHELL")` and `std::env::current_dir()` in
`PtySpawnConfig::default` (lines 53-63). -/
structure HostEnv where
  envVars : List (String × String)
  currentDir : String
deriving DecidableEq

/-- Source: `src/helix-vte/src/lib.rs` lines 53-63, `PtySpawnConfig::default()`.
`std::env::var("SHELL")` with `unwrap_or_else(|_| "/bin/bash")` becomes a
lookup in the host environment with that fallback; `cwd` is
`Some(current_dir)`. -/
def PtySpawnConfig.defaultCfg (host : HostEnv) : PtySpawnConfig :=
  { command := (assocFind "SHELL" host.envVars).getD "/bin/bash"
  , arguments := none
  , size := none
  , cwd := some host.currentDir
  , env := none }

/-- Source: `src/helix-vte/src/lib.rs` lines 97-110, the `PtySize` handed to
`openpty` — the configured `(rows, cols)` when `cfg.size` is `Some`, and
the default `24 × 80` when it is `None`. -/
def openPtySize : Option (Nat × Nat) → PtySize
  | some (r, c) => { rows := r, cols := c, pixel_height := 0, pixel_width := 0 }
  | none => { rows := 24, cols := 80, pixel_height := 0, pixel_width := 0 }

/-- Embeds the `u32 → i32` conversion performed by `try_into()` at line 150:
succeeds exactly when the value fits in `i32` (`≤ 2^31 - 1`). -/
def i32TryFrom (n : Nat) : Option Int :=
  if n ≤ 2147483647 then some (Int.ofNat n) else none

/-- One observation resolved by the lifecycle task's `select!` at lines
146-159: either `try_wait` returned `Ok(Some(status))` (with the status's
`exit_code()` as a `u32`), or `try_wait` returned `Err`, or the
cancellation `Notify` fired (after which `kill()` is attempted, `none`
meaning `Ok` and `some msg` meaning `Err`). `try_wait` returning
`Ok(None)` keeps the arm pending and produces no observation. -/
inductive LifecycleObs where
  | exited (exitCode : Nat)
  | waitFailed (msg : String)
  | notified (killResult : Option String)
deriving DecidableEq

/-- Outcome of running the lifecycle-task loop against a schedule of
observations: still pending (schedule exhausted without resolution), a
single break event, or a panic (the `unwrap` at line 150 failing). -/
inductive TaskOutcome where
  | pending
  | event (e : PtyEvent)
  | panicked
deriving DecidableEq

/-- Source: `src/helix-vte/src/lib.rs` lines 144-165, the lifecycle-task loop.
On `exited` it breaks with `Terminated(exit_code.try_into().unwrap())`
(panicking when the `u32` code exceeds `i32::MAX`); on a `try_wait` error
it breaks with `Error`; on a cancellation notification it calls `kill()`,
breaking with `Error` if the kill syscall fails and looping otherwise. -/
def lifecycleRun : List LifecycleObs → TaskOutcome
  | [] => .pending
  | .exited c :: _ =>
      match i32TryFrom c with
      | some code => .event (.terminated code)
      | none => .panicked
  | .waitFailed m :: _ => .event (.error m)
  | .notified killRes :: rest =>
      match killRes with
      | some m => .event (.error m)
      | none => lifecycleRun rest

/-- The items the lifecycle task contributes to the merged stream: the
`async` block is turned `into_stream()` (line 166), so it yields its break
value once and then ends — at most one event, and nothing at all if the
task is still pending or panicked. -/
def lifecycleStream (obs : List LifecycleObs) : List PtyEvent :=
  match lifecycleRun obs with
  | .event e => [e]
  | _ => []

/-- An outcome of one blocking `reader.read(&mut buf)` call in
`reader_to_stream` (lines 226-236): either the OS has `avail` bytes to
deliver (of which the call returns at most the buffer's length; an empty
`avail` is the zero-length EOF read), or the read syscall fails. -/
inductive ReadOutcome where
  | bytes (avail : List Nat)
  | fail (msg : String)
deriving DecidableEq

/-- The items sent over the channel by the worker thread:
`std::io::Result<Vec<u8>>` — `Ok(chunk)` or `Err(e)`. -/
inductive ReadItem where
  | ok (chunk : List Nat)
  | err (msg : String)
deriving DecidableEq

/-- Line 224: `let mut buf = [0u8; 4096];` — the fixed read buffer size. -/
def BUF_LEN : Nat := 4096

/-- Whether the `sent`-th `blocking_send` succeeds: the consumer side of
the bounded channel is modelled as dropped after `k` received items when
`closedAt = some k` and never dropped when `closedAt = none`. -/
def sendOk (closedAt : Option Nat) (sent : Nat) : Bool :=
  match closedAt with
  | none => true
  | some k => decide (sent < k)

/-- Source: `src/helix-vte/src/lib.rs` lines 223-239, the body of the
`spawn_blocking` worker loop in `reader_to_stream`. Each iteration reads
into the 4096-byte buffer (delivering `avail.take BUF_LEN`): a zero-length
read breaks the loop (EOF); a non-empty read is sent as `Ok(chunk)`,
breaking if the send fails (consumer dropped); a read error is sent as
`Err` (its send result ignored) and the loop breaks. The returned list is
the sequence of items the consumer actually receives, in producer order. -/
def readerThread (closedAt : Option Nat) : List ReadOutcome → Nat → List ReadItem
  | [], _ => []
  | .bytes avail :: rest, sent =>
      if (avail.take BUF_LEN).isEmpty then []
      else if sendOk closedAt sent then
        ReadItem.ok (avail.take BUF_LEN) :: readerThread closedAt rest (sent + 1)
      else []
  | .fail m :: _, sent =>
      if sendOk closedAt sent then [ReadItem.err m] else []

/-- Transcription of the spec's Blocking-Read Bridge contract (spec §4.1),
for comparison with `readerThread`: "forward non-empty reads as items,
stop on zero-length read (EOF) or propagate the error and stop", reads
capped at the fixed buffer size. -/
def bridgeSpec : List ReadOutcome → List ReadItem
  | [] => []
  | .bytes avail :: rest =>
      if (avail.take BUF_LEN).isEmpty then []
      else ReadItem.ok (avail.take BUF_LEN) :: bridgeSpec rest
  | .fail m :: _ => [ReadItem.err m]

/-- Lines 140-143: the `reader.map` wrapping of bridge items into
`PtyEvent`s — `Ok(bytes)` becomes `Data`, `Err(err)` becomes `Error`. -/
def readItemToEvent : ReadItem → PtyEvent
  | .ok chunk => .data chunk
  | .err m => .error m

/-- One step of `stream::select` (line 139): an interleaving of the two
sub-streams chosen by a scheduling oracle (`true` picks the reader side
when it still has items, `false` the lifecycle side); once one side is
exhausted the other is drained. -/
def interleave : List Bool → List PtyEvent → List PtyEvent → List PtyEvent
  | [], xs, ys => xs ++ ys
  | _ :: _, [], ys => ys
  | _ :: _, xs, [] => xs
  | true :: s, x :: xs, ys => x :: interleave s xs ys
  | false :: s, xs, y :: ys => y :: interleave s xs ys

/-- The complete per-session event sequence pushed into `incoming` at
lines 139-167: the `select` of the mapped reader stream (the registry
never drops the receiver, so the channel stays open) with the lifecycle
task's single-event stream, under a scheduling oracle. -/
def sessionStream (readerOutcomes : List ReadOutcome) (lifeObs : List LifecycleObs)
    (sched : List Bool) : List PtyEvent :=
  interleave sched ((readerThread none readerOutcomes 0).map readItemToEvent)
    (lifecycleStream lifeObs)

/-- Source: `src/helix-vte/src/lib.rs` lines 65-69, `TermEntry`. The `writer` and
`master` boxes are opaque OS handles; the state the registry operations
touch is the cancellation `Notify` (whether `notify_waiters` has been
called) and the master's current `PtySize` (set by `openpty`, changed by
`resize`). -/
structure TermEntry where
  killerNotified : Bool
  masterSize : PtySize
deriving DecidableEq

/-- Source: `src/helix-vte/src/lib.rs` lines 73-76, `VteRegistry`. `terminals` is
the id → entry table; `nextId` is the value of the global
`TERMINAL_ID_SEQ` counter (a `u32`, wrapping on `fetch_add`); `incoming`
is the `SelectAll` of per-session streams, each a queue of still-pending
`(id, event)` items. -/
structure VteRegistry where
  terminals : List (Nat × TermEntry)
  nextId : Nat
  incoming : List (List (Nat × PtyEvent))
deriving DecidableEq

/-- Lines 85-90: `VteRegistry::new()`. -/
def VteRegistry.new : VteRegistry :=
  { terminals := [], nextId := 0, incoming := [] }

/-- Which fallible step of `spawn_pty`, if any, fails (each `?` at lines
110, 127 and 131 returns early with a `PtyError`), and for the successful
path the OS oracles determining the session's eventual event sequence. -/
inductive SpawnOutcome where
  | openptyFailed (msg : String)
  | spawnCommandFailed (msg : String)
  | cloneReaderFailed (msg : String)
  | takeWriterFailed (msg : String)
  | ok (readerOutcomes : List ReadOutcome) (lifeObs : List LifecycleObs) (sched : List Bool)

/-- Source: `src/helix-vte/src/lib.rs` lines 92-179, `spawn_pty`. On any failure
before registration the registry is unchanged and the error is returned;
on success the PTY is opened at `openPtySize cfg.size`, a fresh id is
drawn from the wrapping `u32` counter, the session's merged stream is
pushed onto `incoming`, and the entry is inserted into `terminals`. -/
def VteRegistry.spawn_pty (reg : VteRegistry) (cfg : PtySpawnConfig)
    (out : SpawnOutcome) : Except Error Nat × VteRegistry :=
  match out with
  | .openptyFailed m => (.error (.ptyError m), reg)
  | .spawnCommandFailed m => (.error (.ptyError m), reg)
  | .cloneReaderFailed m => (.error (.ptyError m), reg)
  | .takeWriterFailed m => (.error (.ptyError m), reg)
  | .ok readerOutcomes lifeObs sched =>
      let id := reg.nextId
      let evs := sessionStream readerOutcomes lifeObs sched
      (.ok id,
        { terminals :=
            reg.terminals ++ [(id, { killerNotified := false, masterSize := openPtySize cfg.size })]
        , nextId := (reg.nextId + 1) % 4294967296
        , incoming := reg.incoming ++ [evs.map (fun e => (id, e))] })

/-- Source: `src/helix-vte/src/lib.rs` lines 181-190, `terminate`. Looks the id up
(`TerminalNotFound` if absent, registry untouched) and calls
`killer.notify_waiters()`; the entry stays in the table. -/
def VteRegistry.terminate (reg : VteRegistry) (id : Nat) :
    Except Error Unit × VteRegistry :=
  match assocFind id reg.terminals with
  | none => (.error (.terminalNotFound id), reg)
  | some _ =>
      (.ok (),
        { reg with
          terminals := assocUpdate id (fun e => { e with killerNotified := true }) reg.terminals })

/-- Source: `src/helix-vte/src/lib.rs` lines 192-200, `write`. Looks the id up
(`TerminalNotFound` if absent) and performs `write_all` on the entry's
writer; the OS outcome of the write is the `ioResult` oracle (`none` for
success, `some msg` for an `std::io::Error` propagated as `IoError`). The
table is unchanged either way. -/
def VteRegistry.write (reg : VteRegistry) (id : Nat) (data : List Nat)
    (ioResult : Option String) : Except Error Unit × VteRegistry :=
  match assocFind id reg.terminals with
  | none => (.error (.terminalNotFound id), reg)
  | some _ =>
      match ioResult with
      | none => (.ok (), reg)
      | some m => (.error (.ioError m), reg)

/-- Source: `src/helix-vte/src/lib.rs` lines 202-216, `resize`. Looks the id up
(`TerminalNotFound` if absent) and calls `master.resize` with
`rows = new_size.0, cols = new_size.1` and zero pixel sizes; the oracle
`ioResult` is the provider's result (`some msg` propagating a `PtyError`). -/
def VteRegistry.resize (reg : VteRegistry) (id : Nat) (newSize : Nat × Nat)
    (ioResult : Option String) : Except Error Unit × VteRegistry :=
  match assocFind id reg.terminals with
  | none => (.error (.terminalNotFound id), reg)
  | some _ =>
      match ioResult with
      | some m => (.error (.ptyError m), reg)
      | none =>
          (.ok (),
            { reg with
              terminals := assocUpdate id
                (fun e => { e with masterSize :=
                  { rows := newSize.1, cols := newSize.2, pixel_width := 0, pixel_height := 0 } })
                reg.terminals })

/-- One poll of the `SelectAll` at line 75 (as consumed by
`self.registry.incoming.next()`): finished sub-streams are dropped; when
no sub-stream remains the poll resolves to `None`; otherwise the first
live sub-stream yields its next item. -/
def pollIncoming : List (List (Nat × PtyEvent)) →
    Option (Nat × PtyEvent) × List (List (Nat × PtyEvent))
  | [] => (none, [])
  | [] :: rest => pollIncoming rest
  | (x :: s) :: rest => (some x, s :: rest)

/-- Polling the registry's merged stream: yields the next `(id, event)`
item (or `None` when every per-session stream is exhausted) and the
registry afterwards. Only `incoming` changes; `terminals` is untouched. -/
def VteRegistry.pollNext (reg : VteRegistry) :
    Option (Nat × PtyEvent) × VteRegistry :=
  ((pollIncoming reg.incoming).1, { reg with incoming := (pollIncoming reg.incoming).2 })

/-- Registry well-formedness: every registered id was drawn from an
earlier value of the (not yet wrapped) counter. Holds for every state
reachable from `VteRegistry.new` by fewer than `2^32` spawns. -/
def VteRegistry.Wf (reg : VteRegistry) : Prop :=
  reg.nextId < 4294967296 ∧ ∀ p ∈ reg.terminals, p.1 < reg.nextId

/-- Source: `src/helix-view/src/terminal.rs` lines 79-84, `TerminalState`. -/
inductive TerminalState where
  | initializing
  | normal
  | failed (reason : String)
  | terminated (code : Int)
deriving DecidableEq

/-- Source: `src/helix-view/src/terminal.rs` lines 92-110, `TerminalModel`. The
escape parser, surface and `Term` are opaque engine state; what the
claims observe is the status and the sequence of byte chunks fed to
`advance` (the engine's input log). -/
structure TerminalModel where
  state : TerminalState
  advanceLog : List (List Nat)
deriving DecidableEq

/-- Lines 101-104: `TerminalModel::advance` feeds the bytes to the opaque
engine; embedded as appending the chunk to the engine's input log. -/
def TerminalModel.advance (m : TerminalModel) (data : List Nat) : TerminalModel :=
  { m with advanceLog := m.advanceLog ++ [data] }

/-- Source: `src/helix-view/src/terminal.rs` lines 73-77, `TerminalEvent`. -/
inductive TerminalEvent where
  | titleChange (id : Nat) (title : String)
  | update (id : Nat)
deriving DecidableEq

/-- The parts of `TerminalView` (lines 267-277) that registry-event
folding touches: visibility, the active-session selection and the model
table. -/
structure TerminalView where
  visible : Bool
  active_term : Option Nat
  models : List (Nat × TerminalModel)
deriving DecidableEq

/-- Source: `src/helix-view/src/terminal.rs` lines 429-451, the
`registry.incoming.next()` branch of `poll_event`, folding one
`(id, PtyEvent)` into the view. `self.models.get(&id)?` makes an unknown
id return `None` with the view unchanged. `Data` calls `advance` on the
model (with no check of its status); `Error` sets `Failed`; `Terminated`
sets `Terminated(code)`, sets `active_term` to `None` and `visible` to
`false` unconditionally. Known ids surface `Update(id)`. -/
def TerminalView.foldPtyEvent (v : TerminalView) (id : Nat) (ev : PtyEvent) :
    TerminalView × Option TerminalEvent :=
  match ev with
  | .data d =>
      match assocFind id v.models with
      | none => (v, none)
      | some _ =>
          ({ v with models := assocUpdate id (fun m => m.advance d) v.models },
           some (.update id))
  | .error e =>
      match assocFind id v.models with
      | none => (v, none)
      | some _ =>
          ({ v with models := assocUpdate id (fun m => { m with state := .failed e }) v.models },
           some (.update id))
  | .terminated code =>
      match assocFind id v.models with
      | none => (v, none)
      | some _ =>
          ({ v with
             models := assocUpdate id (fun m => { m with state := .terminated code }) v.models
           , active_term := none
           , visible := false },
           some (.update id))

theorem assocFind_assocUpdate {κ α : Type} [DecidableEq κ] (k : κ) (f : α → α)
    (l : List (κ × α)) :
    assocFind k (assocUpdate k f l) = (assocFind k l).map f := by
  induction l with
  | nil => rfl
  | cons p rest ih =>
      obtain ⟨k', a⟩ := p
      by_cases h : k' = k <;> simp [assocFind, assocUpdate, h, ih]

theorem assocKeys_assocUpdate {κ α : Type} [DecidableEq κ] (k : κ) (f : α → α)
    (l : List (κ × α)) :
    assocKeys (assocUpdate k f l) = assocKeys l := by
  induction l with
  | nil => rfl
  | cons p rest ih =>
      obtain ⟨k', a⟩ := p
      by_cases h : k' = k <;> simp [assocKeys, assocUpdate, h] <;>
        simpa [assocKeys] using ih

theorem assocUpdate_assocUpdate {κ α : Type} [DecidableEq κ] (k : κ) (f g : α → α)
    (l : List (κ × α)) :
    assocUpdate k f (assocUpdate k g l) = assocUpdate k (fun a => f (g a)) l := by
  induction l with
  | nil => rfl
  | cons p rest ih =>
      obtain ⟨k', a⟩ := p
      by_cases h : k' = k <;> simp [assocUpdate, h, ih]

theorem lifecycleStream_length_le_one (obs : List LifecycleObs) :
    (lifecycleStream obs).length ≤ 1 := by
  unfold lifecycleStream
  cases lifecycleRun obs <;> simp

/-- C3: the lifecycle task's exit-code extraction is NOT total: the claim
says every reportable exit status yields a `Terminated` event (default 0
or a sentinel for non-representable codes) and never a hard failure, but
line 150's `es.exit_code().try_into().unwrap()` panics for a `u32` exit
code above `i32::MAX`. Evaluating the embedded code at the failing input
`exit_code() = 2147483648 = 2^31`: the conversion fails and the task
panics instead of producing any event, while a representable code (0)
produces `Terminated(0)`. -/
theorem C3_exit_code_extraction_panics :
    i32TryFrom 2147483648 = none
    ∧ lifecycleRun [LifecycleObs.exited 2147483648] = TaskOutcome.panicked
    ∧ lifecycleStream [LifecycleObs.exited 2147483648] = []
    ∧ lifecycleRun [LifecycleObs.exited 0] = TaskOutcome.event (PtyEvent.terminated 0) :=
  ⟨rfl, rfl, rfl, rfl⟩

/-- C1 counterexample: a `try_wait` syscall failure (and likewise a
`kill` failure) makes the lifecycle task break with an `Error` event,
which is the entire remaining output of that task — the session's
lifecycle stream is exactly `[Error msg]`, so no `Terminated` event ever
follows, contradicting the claim that such failures are always eventually
resolved into a `Terminated` event. -/
theorem C1_counterexample :
    lifecycleStream [LifecycleObs.waitFailed "wait failed"]
        = [PtyEvent.error "wait failed"]
    ∧ lifecycleStream [LifecycleObs.notified (some "kill failed")]
        = [PtyEvent.error "kill failed"] :=
  ⟨rfl, rfl⟩

/-- C1 as amended: the lifecycle task emits at most one terminal event
per session, and when it resolves it emits exactly that one event; a
`try_wait` or `kill` syscall failure resolves the task into a single
final `Error` event (not a `Terminated`), after which the task's stream
ends. -/
theorem C1_lifecycle_single_terminal_event (obs : List LifecycleObs) :
    (lifecycleStream obs).length ≤ 1
    ∧ (∀ e, lifecycleRun obs = TaskOutcome.event e → lifecycleStream obs = [e])
    ∧ (∀ m rest, lifecycleRun (LifecycleObs.waitFailed m :: rest)
        = TaskOutcome.event (PtyEvent.error m))
    ∧ (∀ m rest, lifecycleRun (LifecycleObs.notified (some m) :: rest)
        = TaskOutcome.event (PtyEvent.error m)) := by
  refine ⟨lifecycleStream_length_le_one obs, ?_, ?_, ?_⟩
  · intro e h
    simp [lifecycleStream, h]
  · intro m rest
    rfl
  · intro m rest
    rfl

/-- Witness for `C1_lifecycle_single_terminal_event` at the concrete
schedule in which `try_wait` fails. -/
theorem C1_lifecycle_single_terminal_event_witness :
    lifecycleStream [LifecycleObs.waitFailed "w"] = [PtyEvent.error "w"] :=
  (C1_lifecycle_single_terminal_event [LifecycleObs.waitFailed "w"]).2.1
    (PtyEvent.error "w") rfl

/-- C6: `terminate` on an id absent from the registry returns
`TerminalNotFound` and leaves the whole registry (every live entry and
all pending events) unchanged; `terminate` on a live id returns `Ok`;
calling `terminate` twice leaves the same state as calling it once (the
second call is a no-op), and the lifecycle task emits at most one
terminal event for the session no matter how often it is notified, so no
second `Terminated` event can result. -/
theorem C6_terminate_notfound_and_idempotent :
    (∀ reg id, assocFind id reg.terminals = none →
      VteRegistry.terminate reg id = (.error (.terminalNotFound id), reg))
    ∧ (∀ reg id e, assocFind id reg.terminals = some e →
      (VteRegistry.terminate reg id).1 = .ok ())
    ∧ (∀ reg id, (VteRegistry.terminate (VteRegistry.terminate reg id).2 id).2
        = (VteRegistry.terminate reg id).2)
    ∧ (∀ obs, (lifecycleStream obs).length ≤ 1) := by
  refine ⟨?_, ?_, ?_, lifecycleStream_length_le_one⟩
  · intro reg id h
    simp [VteRegistry.terminate, h]
  · intro reg id e h
    simp [VteRegistry.terminate, h]
  · intro reg id
    cases h : assocFind id reg.terminals with
    | none => simp [VteRegistry.terminate, h]
    | some e =>
        simp only [VteRegistry.terminate, h]
        simp [VteRegistry.terminate, assocFind_assocUpdate, h,
          assocUpdate_assocUpdate]

/-- Witness for `C6_terminate_notfound_and_idempotent` on a concrete
registry holding one live session with id 0: id 5 is rejected with no
state change, id 0 is terminated with `Ok`, and a second `terminate` is a
no-op. -/
theorem C6_terminate_witness :
    VteRegistry.terminate
        { terminals := [(0, { killerNotified := false, masterSize := openPtySize none })]
        , nextId := 1, incoming := [] } 5
      = (.error (.terminalNotFound 5),
         { terminals := [(0, { killerNotified := false, masterSize := openPtySize none })]
         , nextId := 1, incoming := [] })
    ∧ (VteRegistry.terminate
        { terminals := [(0, { killerNotified := false, masterSize := openPtySize none })]
        , nextId := 1, incoming := [] } 0).1 = .ok ()
    ∧ (VteRegistry.terminate
        (VteRegistry.terminate
          { terminals := [(0, { killerNotified := false, masterSize := openPtySize none })]
          , nextId := 1, incoming := [] } 0).2 0).2
      = (VteRegistry.terminate
          { terminals := [(0, { killerNotified := false, masterSize := openPtySize none })]
          , nextId := 1, incoming := [] } 0).2 :=
  ⟨C6_terminate_notfound_and_idempotent.1 _ 5 rfl,
   C6_terminate_notfound_and_idempotent.2.1 _ 0
     { killerNotified := false, masterSize := openPtySize none } rfl,
   C6_terminate_notfound_and_idempotent.2.2.1 _ 0⟩

/-- C8: the default spawn configuration takes its command from the
`SHELL` environment variable, falling back to `/bin/bash` when it is
unset, and its working directory from the current process; and for every
config, `spawn_pty` opens the PTY at exactly `cfg.size`'s `(rows, cols)`
when set and at the default `24 × 80` when unset — the registered entry's
master size is `openPtySize cfg.size`. -/
theorem C8_default_config_and_pty_size :
    (∀ host s, assocFind "SHELL" host.envVars = some s →
      (PtySpawnConfig.defaultCfg host).command = s)
    ∧ (∀ host, assocFind "SHELL" host.envVars = none →
      (PtySpawnConfig.defaultCfg host).command = "/bin/bash")
    ∧ (∀ host, (PtySpawnConfig.defaultCfg host).cwd = some host.currentDir
        ∧ (PtySpawnConfig.defaultCfg host).size = none)
    ∧ (∀ r c, openPtySize (some (r, c))
        = { rows := r, cols := c, pixel_width := 0, pixel_height := 0 })
    ∧ openPtySize none = { rows := 24, cols := 80, pixel_width := 0, pixel_height := 0 }
    ∧ (∀ reg cfg ro lo sc,
        (VteRegistry.spawn_pty reg cfg (.ok ro lo sc)).2.terminals
          = reg.terminals
              ++ [(reg.nextId, { killerNotified := false, masterSize := openPtySize cfg.size })]) := by
  refine ⟨?_, ?_, fun host => ⟨rfl, rfl⟩, fun r c => rfl, rfl, fun reg cfg ro lo sc => rfl⟩
  · intro host s h
    simp [PtySpawnConfig.defaultCfg, h]
  · intro host h
    simp [PtySpawnConfig.defaultCfg, h]

/-- Witness for `C8_default_config_and_pty_size` on concrete host
environments: with `SHELL=/bin/zsh` the default command is `/bin/zsh`,
and with no `SHELL` binding it is `/bin/bash`. -/
theorem C8_default_config_witness :
    (PtySpawnConfig.defaultCfg { envVars := [("SHELL", "/bin/zsh")], currentDir := "/w" }).command
        = "/bin/zsh"
    ∧ (PtySpawnConfig.defaultCfg { envVars := [], currentDir := "/w" }).command
        = "/bin/bash" :=
  ⟨C8_default_config_and_pty_size.1
      { envVars := [("SHELL", "/bin/zsh")], currentDir := "/w" } "/bin/zsh" rfl,
   C8_default_config_and_pty_size.2.1 { envVars := [], currentDir := "/w" } rfl⟩

theorem readerThread_open_eq_bridgeSpec (outs : List ReadOutcome) :
    ∀ sent, readerThread none outs sent = bridgeSpec outs := by
  induction outs with
  | nil => intro sent; rfl
  | cons o rest ih =>
      intro sent
      cases o with
      | bytes avail =>
          by_cases h : (avail.take BUF_LEN).isEmpty <;>
            simp [readerThread, bridgeSpec, h, sendOk, ih]
      | fail m => simp [readerThread, bridgeSpec, sendOk]

theorem readerThread_prefix_of_bridgeSpec (closedAt : Option Nat)
    (outs : List ReadOutcome) :
    ∀ sent, ∃ t, bridgeSpec outs = readerThread closedAt outs sent ++ t := by
  induction outs with
  | nil => intro sent; exact ⟨[], rfl⟩
  | cons o rest ih =>
      intro sent
      cases o with
      | bytes avail =>
          by_cases h : (avail.take BUF_LEN).isEmpty
          · exact ⟨[], by simp [readerThread, bridgeSpec, h]⟩
          · cases hs : sendOk closedAt sent
            · exact ⟨ReadItem.ok (avail.take BUF_LEN) :: bridgeSpec rest,
                by simp [readerThread, bridgeSpec, h, hs]⟩
            · obtain ⟨t, ht⟩ := ih (sent + 1)
              exact ⟨t, by simp [readerThread, bridgeSpec, h, hs, ht]⟩
      | fail m =>
          cases hs : sendOk closedAt sent
          · exact ⟨[ReadItem.err m], by simp [readerThread, bridgeSpec, hs]⟩
          · exact ⟨[], by simp [readerThread, bridgeSpec, hs]⟩

theorem bridgeSpec_ok_mem_bounds (outs : List ReadOutcome) :
    ∀ c, ReadItem.ok c ∈ bridgeSpec outs → c ≠ [] ∧ c.length ≤ BUF_LEN := by
  induction outs with
  | nil =>
      intro c h
      simp [bridgeSpec] at h
  | cons o rest ih =>
      intro c h
      cases o with
      | bytes avail =>
          cases he : (avail.take BUF_LEN).isEmpty with
          | true =>
              rw [show bridgeSpec (ReadOutcome.bytes avail :: rest) = []
                from by simp [bridgeSpec, he]] at h
              simp at h
          | false =>
              rw [show bridgeSpec (ReadOutcome.bytes avail :: rest)
                  = ReadItem.ok (avail.take BUF_LEN) :: bridgeSpec rest
                from by simp [bridgeSpec, he]] at h
              rcases List.mem_cons.mp h with h | h
              · rw [ReadItem.ok.injEq] at h
                subst h
                refine ⟨?_, ?_⟩
                · intro hc
                  rw [hc] at he
                  simp at he
                · rw [List.length_take]
                  exact min_le_left _ _
              · exact ih c h
      | fail m =>
          rw [show bridgeSpec (ReadOutcome.fail m :: rest) = [ReadItem.err m]
            from by simp [bridgeSpec]] at h
          simp at h

theorem readerThread_err_is_last (closedAt : Option Nat) (outs : List ReadOutcome) :
    ∀ sent pre m post,
      readerThread closedAt outs sent = pre ++ ReadItem.err m :: post → post = [] := by
  induction outs with
  | nil =>
      intro sent pre m post h
      rw [show readerThread closedAt [] sent = [] from rfl] at h
      exact absurd h.symm (by simp)
  | cons o rest ih =>
      intro sent pre m post h
      cases o with
      | bytes avail =>
          cases he : (avail.take BUF_LEN).isEmpty with
          | true =>
              rw [show readerThread closedAt (ReadOutcome.bytes avail :: rest) sent = []
                from by simp [readerThread, he]] at h
              exact absurd h.symm (by simp)
          | false =>
              cases hs : sendOk closedAt sent with
              | false =>
                  rw [show readerThread closedAt (ReadOutcome.bytes avail :: rest) sent = []
                    from by simp [readerThread, he, hs]] at h
                  exact absurd h.symm (by simp)
              | true =>
                  rw [show readerThread closedAt (ReadOutcome.bytes avail :: rest) sent
                      = ReadItem.ok (avail.take BUF_LEN)
                          :: readerThread closedAt rest (sent + 1)
                    from by simp [readerThread, he, hs]] at h
                  cases pre with
                  | nil => simp at h
                  | cons p pre' =>
                      rw [List.cons_append, List.cons.injEq] at h
                      exact ih (sent + 1) pre' m post h.2
      | fail m' =>
          cases hs : sendOk closedAt sent with
          | false =>
              rw [show readerThread closedAt (ReadOutcome.fail m' :: rest) sent = []
                from by simp [readerThread, hs]] at h
              exact absurd h.symm (by simp)
          | true =>
              rw [show readerThread closedAt (ReadOutcome.fail m' :: rest) sent
                  = [ReadItem.err m'] from by simp [readerThread, hs]] at h
              cases pre with
              | nil =>
                  rw [List.nil_append, List.cons.injEq] at h
                  exact h.2.symm
              | cons p pre' =>
                  rw [List.cons_append, List.cons.injEq] at h
                  exact absurd h.2.symm (by simp)

/-- C7: the blocking-read bridge. With the consumer side open, the worker
delivers exactly the spec-mandated sequence (`bridgeSpec`): one item per
successful non-empty read, in producer order, truncated to the 4096-byte
buffer; every delivered chunk is non-empty and at most 4096 bytes long; a
zero-length read (EOF) ends the stream with no items; a read error is
forwarded as an item after which nothing follows; and when the consumer
closes the channel the worker breaks out of its loop (its delivered items
are a prefix of the open-channel sequence) rather than panicking. -/
theorem C7_reader_bridge :
    (∀ outs sent, readerThread none outs sent = bridgeSpec outs)
    ∧ (∀ closedAt outs sent, ∃ t,
        bridgeSpec outs = readerThread closedAt outs sent ++ t)
    ∧ (∀ closedAt outs sent c,
        ReadItem.ok c ∈ readerThread closedAt outs sent →
          c ≠ [] ∧ c.length ≤ BUF_LEN)
    ∧ (∀ closedAt outs sent,
        readerThread closedAt (ReadOutcome.bytes [] :: outs) sent = [])
    ∧ (∀ closedAt outs sent pre m post,
        readerThread closedAt outs sent = pre ++ ReadItem.err m :: post →
          post = []) := by
  refine ⟨fun outs sent => readerThread_open_eq_bridgeSpec outs sent,
    fun closedAt outs sent => readerThread_prefix_of_bridgeSpec closedAt outs sent,
    ?_, fun closedAt outs sent => by simp [readerThread],
    fun closedAt outs sent => readerThread_err_is_last closedAt outs sent⟩
  intro closedAt outs sent c hmem
  obtain ⟨t, ht⟩ := readerThread_prefix_of_bridgeSpec closedAt outs sent
  exact bridgeSpec_ok_mem_bounds outs c (ht ▸ List.mem_append_left t hmem)

/-- Witness for `C7_reader_bridge` on the concrete handle that yields one
3-byte read and then a read error: the delivered chunk is non-empty and
within the buffer bound, and nothing follows the forwarded error item. -/
theorem C7_reader_bridge_witness :
    (([104, 105, 33] : List Nat) ≠ [] ∧ ([104, 105, 33] : List Nat).length ≤ BUF_LEN)
    ∧ ([] : List ReadItem) = [] :=
  ⟨C7_reader_bridge.2.2.1 none
      [ReadOutcome.bytes [104, 105, 33], ReadOutcome.fail "eio"] 0
      [104, 105, 33] (by decide),
   C7_reader_bridge.2.2.2.2 none
      [ReadOutcome.bytes [104, 105, 33], ReadOutcome.fail "eio"] 0
      [ReadItem.ok [104, 105, 33]] "eio" [] (by decide)⟩

theorem pollIncoming_none_iff (streams : List (List (Nat × PtyEvent))) :
    (pollIncoming streams).1 = none ↔ ∀ s ∈ streams, s = [] := by
  induction streams with
  | nil => simp [pollIncoming]
  | cons s rest ih =>
      cases s with
      | nil => simpa [pollIncoming] using ih
      | cons x s' => simp [pollIncoming]

/-- C10: the registry's session table grows monotonically. A successful
`spawn_pty` returns the counter value as the new id, extends the key set
by exactly that id (fresh for any well-formed registry), and every
failing `spawn_pty` leaves the registry untouched; `terminate`, `write`,
`resize` and polling the merged stream never insert or remove entries —
no registry operation ever removes an entry from the table. -/
theorem C10_table_monotone :
    (∀ reg cfg ro lo sc, reg.Wf →
       (VteRegistry.spawn_pty reg cfg (.ok ro lo sc)).1 = .ok reg.nextId
       ∧ assocKeys (VteRegistry.spawn_pty reg cfg (.ok ro lo sc)).2.terminals
           = assocKeys reg.terminals ++ [reg.nextId]
       ∧ reg.nextId ∉ assocKeys reg.terminals)
    ∧ (∀ reg cfg m,
        VteRegistry.spawn_pty reg cfg (.openptyFailed m) = (.error (.ptyError m), reg))
    ∧ (∀ reg cfg m,
        VteRegistry.spawn_pty reg cfg (.spawnCommandFailed m) = (.error (.ptyError m), reg))
    ∧ (∀ reg cfg m,
        VteRegistry.spawn_pty reg cfg (.cloneReaderFailed m) = (.error (.ptyError m), reg))
    ∧ (∀ reg cfg m,
        VteRegistry.spawn_pty reg cfg (.takeWriterFailed m) = (.error (.ptyError m), reg))
    ∧ (∀ reg id, assocKeys (VteRegistry.terminate reg id).2.terminals
        = assocKeys reg.terminals)
    ∧ (∀ reg id d io, assocKeys (VteRegistry.write reg id d io).2.terminals
        = assocKeys reg.terminals)
    ∧ (∀ reg id s io, assocKeys (VteRegistry.resize reg id s io).2.terminals
        = assocKeys reg.terminals)
    ∧ (∀ reg, (VteRegistry.pollNext reg).2.terminals = reg.terminals) := by
  refine ⟨?_, fun reg cfg m => rfl, fun reg cfg m => rfl, fun reg cfg m => rfl,
    fun reg cfg m => rfl, ?_, ?_, ?_, fun reg => rfl⟩
  · intro reg cfg ro lo sc hWf
    refine ⟨rfl, by simp [VteRegistry.spawn_pty, assocKeys], ?_⟩
    intro hmem
    simp only [assocKeys, List.mem_map] at hmem
    obtain ⟨p, hp, hEq⟩ := hmem
    have := hWf.2 p hp
    omega
  · intro reg id
    cases h : assocFind id reg.terminals with
    | none => simp [VteRegistry.terminate, h]
    | some e => simp [VteRegistry.terminate, h, assocKeys_assocUpdate]
  · intro reg id d io
    cases h : assocFind id reg.terminals with
    | none => simp [VteRegistry.write, h]
    | some e => cases io <;> simp [VteRegistry.write, h]
  · intro reg id s io
    cases h : assocFind id reg.terminals with
    | none => simp [VteRegistry.resize, h]
    | some e => cases io <;> simp [VteRegistry.resize, h, assocKeys_assocUpdate]

/-- Witness for `C10_table_monotone` on the empty registry (which is
well-formed): the first spawn returns id 0 and the key set becomes `[0]`. -/
theorem C10_table_monotone_witness :
    (VteRegistry.spawn_pty VteRegistry.new
        { command := "/bin/true", arguments := none, size := none
        , cwd := none, env := none } (.ok [] [] [])).1 = .ok VteRegistry.new.nextId
    ∧ assocKeys (VteRegistry.spawn_pty VteRegistry.new
        { command := "/bin/true", arguments := none, size := none
        , cwd := none, env := none } (.ok [] [] [])).2.terminals
        = assocKeys VteRegistry.new.terminals ++ [VteRegistry.new.nextId]
    ∧ VteRegistry.new.nextId ∉ assocKeys VteRegistry.new.terminals :=
  C10_table_monotone.1 VteRegistry.new
    { command := "/bin/true", arguments := none, size := none
    , cwd := none, env := none } [] [] []
    ⟨by decide, by intro p hp; cases hp⟩

/-- A registry holding one spawned session (id 0) whose child process
exits immediately with code 0 and whose reader hits EOF at once: the
session's merged stream consists of the single `Terminated 0` event. -/
def regSpawned : VteRegistry :=
  (VteRegistry.spawn_pty VteRegistry.new
    { command := "/bin/true", arguments := none, size := none, cwd := none, env := none }
    (.ok [ReadOutcome.bytes []] [LifecycleObs.exited 0] [])).2

/-- The registry `regSpawned` after its single pending event (the
`Terminated 0` for session 0) has been consumed from the merged stream. -/
def regDrained : VteRegistry := (VteRegistry.pollNext regSpawned).2

/-- C4 counterexample: in the reachable state `regDrained` the session
table is non-empty (entry 0 is never removed) yet polling the merged
stream yields `None`, because session 0's per-session stream has finished
and `SelectAll` has dropped it — refuting the claim that a poll never
yields `None` while the table is non-empty. -/
theorem C4_counterexample :
    (VteRegistry.pollNext regSpawned).1 = some (0, PtyEvent.terminated 0)
    ∧ regDrained.terminals ≠ []
    ∧ (VteRegistry.pollNext regDrained).1 = none := by
  refine ⟨rfl, ?_, rfl⟩
  decide

/-- C4 as amended: polling the registry's merged incoming stream returns
`None` exactly when every per-session stream added so far has been
exhausted; since entries are never removed from the session table, the
table being non-empty does not prevent `None` — only a spawn (which
pushes a fresh stream) can make a subsequent poll yield an item again. -/
theorem C4_pollNext_none_iff (reg : VteRegistry) :
    (VteRegistry.pollNext reg).1 = none ↔ ∀ s ∈ reg.incoming, s = [] :=
  pollIncoming_none_iff reg.incoming

/-- C2 counterexample: after the `Terminated` event for session 0 has
been observed on the merged stream (state `regDrained`), the registry
entry is still present and `write(0, bytes)` succeeds against the dead
handle instead of returning `TerminalNotFound` — refuting the claim that
the entry is removed once `Terminated` has been observed. -/
theorem C2_counterexample :
    (VteRegistry.pollNext regSpawned).1 = some (0, PtyEvent.terminated 0)
    ∧ assocFind 0 regDrained.terminals ≠ none
    ∧ (VteRegistry.write regDrained 0 [104] none).1 = .ok ()
    ∧ (VteRegistry.write regDrained 0 [104] none).1
        ≠ .error (.terminalNotFound 0) := by
  refine ⟨rfl, by decide, rfl, fun h => Except.noConfusion h⟩

/-- C2 as amended: registry entries are never removed — not by observing
`Terminated` on the merged stream, not by `terminate` — so `write`
returns `TerminalNotFound` exactly for ids with no entry (ids never
registered), and a write to a session whose `Terminated` event has been
observed still finds the entry and performs a best-effort write (`Ok` or
a surfaced `IoError`). -/
theorem C2_write_notfound_iff_absent :
    (∀ reg id d io, ((VteRegistry.write reg id d io).1
        = Except.error (Error.terminalNotFound id)
      ↔ assocFind id reg.terminals = none))
    ∧ (∀ reg id d io, (VteRegistry.write reg id d io).2 = reg)
    ∧ (∀ reg, (VteRegistry.pollNext reg).2.terminals = reg.terminals)
    ∧ (∀ reg id, assocKeys (VteRegistry.terminate reg id).2.terminals
        = assocKeys reg.terminals) := by
  refine ⟨?_, ?_, fun reg => rfl, ?_⟩
  · intro reg id d io
    cases h : assocFind id reg.terminals with
    | none => simp [VteRegistry.write, h]
    | some e => cases io <;> simp [VteRegistry.write, h]
  · intro reg id d io
    cases h : assocFind id reg.terminals with
    | none => simp [VteRegistry.write, h]
    | some e => cases io <;> simp [VteRegistry.write, h]
  · intro reg id
    cases h : assocFind id reg.terminals with
    | none => simp [VteRegistry.terminate, h]
    | some e => simp [VteRegistry.terminate, h, assocKeys_assocUpdate]

/-- A view holding two live (Normal-state) sessions, 1 and 2, with the
active selection pointing at session 1. -/
def viewTwoSessions : TerminalView :=
  { visible := true
  , active_term := some 1
  , models := [(1, { state := .normal, advanceLog := [] }),
               (2, { state := .normal, advanceLog := [] })] }

/-- C5 counterexample: folding `(2, Terminated 0)` into a view whose
active selection points at the *different* live session 1 still clears
the selection — `poll_event` sets `self.active_term = None`
unconditionally (line 445) — refuting the claim that the selection is
cleared only when it points at the terminated session. -/
theorem C5_counterexample :
    viewTwoSessions.active_term = some 1
    ∧ assocFind 1 viewTwoSessions.models
        = some { state := .normal, advanceLog := [] }
    ∧ (viewTwoSessions.foldPtyEvent 2 (PtyEvent.terminated 0)).1.active_term = none
    ∧ (viewTwoSessions.foldPtyEvent 2 (PtyEvent.terminated 0)).1.active_term
        ≠ some 1 := by
  refine ⟨rfl, by decide, rfl, by decide⟩

/-- C5 as amended: when the view folds `(id, Terminated(code))` for a
known id, the model for `id` transitions to state `Terminated(code)`, a
content-update notification `Update(id)` is surfaced to the host, and the
active-session selection is cleared unconditionally (and the terminal
hidden), even when the selection points at a different live session. -/
theorem C5_fold_terminated (v : TerminalView) (id : Nat) (code : Int)
    (m : TerminalModel) (h : assocFind id v.models = some m) :
    (v.foldPtyEvent id (PtyEvent.terminated code)).2 = some (.update id)
    ∧ assocFind id (v.foldPtyEvent id (PtyEvent.terminated code)).1.models
        = some { m with state := .terminated code }
    ∧ (v.foldPtyEvent id (PtyEvent.terminated code)).1.active_term = none
    ∧ (v.foldPtyEvent id (PtyEvent.terminated code)).1.visible = false := by
  simp [TerminalView.foldPtyEvent, h, assocFind_assocUpdate]

/-- Witness for `C5_fold_terminated`, applied to the concrete view with
two sessions and the `Terminated 0` event for session 2. -/
theorem C5_fold_terminated_witness :
    (viewTwoSessions.foldPtyEvent 2 (PtyEvent.terminated 0)).2 = some (.update 2)
    ∧ assocFind 2 (viewTwoSessions.foldPtyEvent 2 (PtyEvent.terminated 0)).1.models
        = some { state := .terminated 0, advanceLog := [] }
    ∧ (viewTwoSessions.foldPtyEvent 2 (PtyEvent.terminated 0)).1.active_term = none
    ∧ (viewTwoSessions.foldPtyEvent 2 (PtyEvent.terminated 0)).1.visible = false :=
  C5_fold_terminated viewTwoSessions 2 0 { state := .normal, advanceLog := [] }
    (by decide)

/-- A view holding one session, id 7, whose model has already entered the
terminal state `Terminated 0` (its `Terminated` event was folded) but was
not closed, so it is still present in the model table. -/
def viewAfterTerminated : TerminalView :=
  { visible := false
  , active_term := none
  , models := [(7, { state := .terminated 0, advanceLog := [] })] }

/-- C9 counterexample: folding a later `Data` event for session 7 invokes
`advance` on the model even though its status is the terminal state
`Terminated 0` — `poll_event`'s Data arm (line 434) calls
`advance` with no status check — refuting the claim that `advance` is
never invoked after a terminal state is entered. The engine input log
grows from `[]` to `[[104, 105]]` while the state stays `Terminated 0`. -/
theorem C9_counterexample :
    (assocFind 7 viewAfterTerminated.models).map TerminalModel.state
        = some (TerminalState.terminated 0)
    ∧ assocFind 7 (viewAfterTerminated.foldPtyEvent 7
          (PtyEvent.data [104, 105])).1.models
        = some { state := .terminated 0, advanceLog := [[104, 105]] } := by
  refine ⟨rfl, by decide⟩

/-- C9 as amended: folding a `Data` event calls `advance` on the model
whenever the id is present in the model table, regardless of its status —
a status of `Failed` or `Terminated` does not prevent further `advance`
calls; only removal from the table (`close_term`) does. -/
theorem C9_fold_data_always_advances (v : TerminalView) (id : Nat)
    (d : List Nat) (m : TerminalModel) (h : assocFind id v.models = some m) :
    assocFind id (v.foldPtyEvent id (PtyEvent.data d)).1.models
        = some (m.advance d)
    ∧ (v.foldPtyEvent id (PtyEvent.data d)).2 = some (.update id) := by
  simp [TerminalView.foldPtyEvent, h, assocFind_assocUpdate]

/-- Witness for `C9_fold_data_always_advances`, applied to the view whose
single model is already in the terminal state `Terminated 0`. -/
theorem C9_fold_data_always_advances_witness :
    assocFind 7 (viewAfterTerminated.foldPtyEvent 7 (PtyEvent.data [104])).1.models
        = some (TerminalModel.advance { state := .terminated 0, advanceLog := [] } [104])
    ∧ (viewAfterTerminated.foldPtyEvent 7 (PtyEvent.data [104])).2 = some (.update 7) :=
  C9_fold_data_always_advances viewAfterTerminated 7 [104]
    { state := .terminated 0, advanceLog := [] } (by decide)

end HelixVte
